import Mathlib

/-!
Verification development for the aws-node-lambda-helper tool
(single source file `src/main.ts`).

The development shallowly embeds the program's data model and operations:

* `JsonV` models the JavaScript values produced by `JSON.parse`, together
  with the duck-typed helpers (`truthy`, `hasOwnProperty`, `getProp`,
  `isNEString`) the source uses on them.
* `isLambdaConfig`, `isLambdaSecrets`, `isLambdaTest` and `checkObject`
  embed the structural validators; `readObject` embeds the file reader,
  with the file-system read and `JSON.parse` outcomes supplied as a
  `ParseOutcome` input and a never-settling promise represented as `none`.
* `EnvVal` models the `Environment` values (`EnvironmentResponse |
  null | undefined`, with `Variables` a string-to-string object as in the
  declared types), and `compareEnvironment` embeds the equality check.
* `deploy` embeds the deploy decision flow from `checkLambda` onward over
  typed, already-loaded configuration records; the remote API's behaviour
  is supplied as a `World` input and the remote calls the program issues
  are collected as a `Call` trace.
* `runTests` / `testOp` embed the local test harness, with module
  resolution supplied by a `ModuleWorld` and module loads and handler
  invocations collected as a `TestEvent` trace.
-/

/-- A JavaScript value as produced by `JSON.parse`: null, booleans,
numbers (modelled as integers; no claim depends on fractional values),
strings, arrays and objects (ordered field lists; `JSON.parse` yields
objects whose keys are unique). -/
inductive JsonV where
  | null
  | bool (b : Bool)
  | num (n : Int)
  | str (s : String)
  | arr (elems : List JsonV)
  | obj (fields : List (String × JsonV))

/-- JavaScript truthiness of a `JsonV` (`undefined` never arises from
`JSON.parse`): null, `false`, `0` and the empty string are falsy, every
array and object is truthy. -/
def truthy : JsonV → Bool
  | .null => false
  | .bool b => b
  | .num n => n != 0
  | .str s => s != ""
  | .arr _ => true
  | .obj _ => true

/-- `v.hasOwnProperty(key)`. The validators apply it only to values that
passed the `typeof v === 'object' && v !== null` test, i.e. arrays and
objects; an array's own properties are its indices and `length`. -/
def hasOwnProperty (v : JsonV) (key : String) : Bool :=
  match v with
  | .obj fields => fields.any (fun p => p.1 == key)
  | .arr elems =>
      key == "length" ||
        (match key.toNat? with
         | some i => decide (i < elems.length)
         | none => false)
  | _ => false

/-- Property access `v[key]`: `none` stands for `undefined`. Fields are
unique in `JSON.parse` output, so taking the first match is exact. -/
def getProp (v : JsonV) (key : String) : Option JsonV :=
  match v with
  | .obj fields =>
      match fields.find? (fun p => p.1 == key) with
      | some p => some p.2
      | none => none
  | _ => none

/-- `typeof v === 'object'`: true for null, arrays and objects. -/
def typeofIsObject : JsonV → Bool
  | .null => true
  | .arr _ => true
  | .obj _ => true
  | _ => false

/-- `v !== null`. -/
def isNotNull : JsonV → Bool
  | .null => false
  | _ => true

/-- `isNEString` applied to a property-access result (possibly
`undefined`): a non-empty string. -/
def isNEString : Option JsonV → Bool
  | some (.str s) => decide (0 < s.length)
  | _ => false

/-- `isLambdaConfig`: a non-null object value with the eight
configuration property names present; values are not inspected. -/
def isLambdaConfig (obj : JsonV) : Bool :=
  typeofIsObject obj &&
  isNotNull obj &&
  hasOwnProperty obj "archiveName" &&
  hasOwnProperty obj "FunctionName" &&
  hasOwnProperty obj "Description" &&
  hasOwnProperty obj "Handler" &&
  hasOwnProperty obj "Publish" &&
  hasOwnProperty obj "Runtime" &&
  hasOwnProperty obj "MemorySize" &&
  hasOwnProperty obj "Timeout"

/-- `isLambdaSecrets`: a non-null object value with the six secrets
property names present; values are not inspected. -/
def isLambdaSecrets (obj : JsonV) : Bool :=
  typeofIsObject obj &&
  isNotNull obj &&
  hasOwnProperty obj "region" &&
  hasOwnProperty obj "profile" &&
  hasOwnProperty obj "accessKeyId" &&
  hasOwnProperty obj "secretAccessKey" &&
  hasOwnProperty obj "Role" &&
  hasOwnProperty obj "Environment"

/-- `isLambdaTest`: a non-null object value with `context` and `events`
present; values are not inspected. -/
def isLambdaTest (obj : JsonV) : Bool :=
  typeofIsObject obj &&
  isNotNull obj &&
  hasOwnProperty obj "context" &&
  hasOwnProperty obj "events"

/-- `isLambdaTests`: an array each of whose elements passes
`isLambdaTest`. -/
def isLambdaTests (obj : JsonV) : Bool :=
  match obj with
  | .arr elems => elems.all isLambdaTest
  | _ => false

def FILE_LAMBDA_CONFIG : String := "lambda-config.json"

def FILE_LAMBDA_SECRETS : String := "lambda-secrets.json"

def FILE_LAMBDA_TESTS : String := "lambda-tests.json"

def INFO_FUNCTION_CODE_UO_TO_DATE : String := "Function code up-to-date"

def INFO_DEPLOY_COMPLETE : String := "Lambda function deploy finished"

def ERR_LAMBDA_NOT_FOUND : String := "Lambda not found"

def ERR_LAMBDA_CONFIG : String := "Lambda config different"

/-- `GdwAwsLambda.checkObject`: the per-kind shape check, returning the
empty string on success and an error message otherwise. -/
def checkObject (object : JsonV) (checkType : String) : String :=
  if checkType == FILE_LAMBDA_CONFIG then
    if isLambdaConfig object then "" else "Invalid lambda config"
  else if checkType == FILE_LAMBDA_SECRETS then
    if isLambdaSecrets object then "" else "Invalid lambda secrets"
  else if checkType == FILE_LAMBDA_TESTS then
    match object with
    | .arr elems =>
        if elems.all isLambdaTest then "" else "Invalid lambda tests"
    | _ => "Invalid lambda tests"
  else
    "Invalid check type " ++ checkType

/-- The combined outcome of `fs.readFile` and `JSON.parse` on a file:
the read fails, the content is not JSON, or it parses to a value. -/
inductive ParseOutcome where
  | readFailure
  | invalidJSON
  | parsed (v : JsonV)

/-- `GdwAwsLambda.readObject`: the promise's settlement, with `none`
standing for a promise that never settles. After a successful parse the
source only resolves or rejects inside `if (object) { ... }`, so a file
whose JSON parses to a falsy value leaves the promise pending forever. -/
def readObject (file : String) (outcome : ParseOutcome)
    (checkType : Option String) : Option (Except String JsonV) :=
  match outcome with
  | .readFailure => some (.error ("Failed to read file " ++ file))
  | .invalidJSON => some (.error "Invalid JSON")
  | .parsed object =>
      if truthy object then
        match checkType with
        | some t =>
            let result := checkObject object t
            if result != "" then some (.error result) else some (.ok object)
        | none => some (.ok object)
      else
        none

/-- A string-to-string `Variables` object, as declared for
`Environment.Variables` on both the local secrets and the remote
configuration: an ordered field list with unique keys. -/
abbrev VarMap := List (String × String)

/-- An `Environment` value as passed to `compareEnvironment`
(`EnvironmentResponse | null | undefined`): `undefined`, `null`, or an
object whose only possible own property is `Variables` (absent when
`vars = none`). -/
inductive EnvVal where
  | undef
  | null
  | obj (vars : Option VarMap)
deriving DecidableEq

/-- `isObject` on an environment value: `typeof v === 'object' && v !==
null`, so true exactly for the object case. -/
def isObject : EnvVal → Bool
  | .obj _ => true
  | _ => false

/-- `isEmpty` on an environment value: `undefined`, `null`, or an object
with no own properties (an object carrying a `Variables` property has one
key and is not empty). -/
def isEmpty : EnvVal → Bool
  | .undef => true
  | .null => true
  | .obj none => true
  | .obj (some _) => false

/-- The `Variables` property access `env.Variables`: `none` stands for
`undefined` (the source only performs this access behind an `isObject`
guard, so the non-object cases are never reached). -/
def EnvVal.Variables : EnvVal → Option VarMap
  | .obj (some m) => some m
  | _ => none

/-- `isEmpty` on an accessed `Variables` value: `undefined` or an object
with zero keys. -/
def isEmptyVars : Option VarMap → Bool
  | none => true
  | some m => m.length == 0

/-- `isObject` on an accessed `Variables` value: any present map. -/
def isObjectVars : Option VarMap → Bool
  | some _ => true
  | none => false

/-- `Object.keys` of a `Variables` object. -/
def varKeys (m : VarMap) : List String := m.map Prod.fst

/-- `Object.keys(x).length` of an accessed `Variables` value (0 when the
access yielded `undefined`; the source only asks this behind an
`isObject` guard). -/
def varsCount : Option VarMap → Nat
  | some m => (varKeys m).length
  | none => 0

/-- The lookup `variables[key]`: `none` stands for `undefined`. -/
def lookupVar : VarMap → String → Option String
  | [], _ => none
  | (k, v) :: rest, key => if k == key then some v else lookupVar rest key

/-- The disjunct the source repeats inline for each side of
`compareEnvironment`: `isEmpty(env) || isObject(env) && env &&
isEmpty(env.Variables)` (the truthiness test `env` is subsumed by
`isObject`). -/
def emptySide (env : EnvVal) : Bool :=
  isEmpty env || (isObject env && isEmptyVars env.Variables)

/-- The source's test for a side carrying at least one variable:
`isObject(env) && env && isObject(env.Variables) &&
Object.keys(env.Variables).length > 0`. -/
def hasVars (env : EnvVal) : Bool :=
  isObject env && isObjectVars env.Variables && varsCount env.Variables != 0

/-- The key/value comparison loop of `compareEnvironment`'s last branch:
key counts must agree, and each key of the first object must map to the
same value in both (`variables2[k]` is `undefined` when `k` is absent
there, which compares unequal to any string). -/
def compareVars (m1 m2 : VarMap) : Bool :=
  let k1 := varKeys m1
  let k2 := varKeys m2
  if k1.length == k2.length then
    k1.all (fun k => lookupVar m1 k == lookupVar m2 k)
  else false

/-- `GdwAwsLambda.compareEnvironment`, branch by branch as in the
source: both sides effectively empty; only the second side carrying
variables; only the first side carrying variables; both sides carrying
`Variables` objects (compared key by key); anything else unequal. -/
def compareEnvironment (env1 env2 : EnvVal) : Bool :=
  if emptySide env1 && emptySide env2 then
    true
  else if hasVars env2 && emptySide env1 then
    false
  else if hasVars env1 && emptySide env2 then
    false
  else if isObject env1 && isObjectVars env1.Variables &&
      isObject env2 && isObjectVars env2.Variables then
    match env1.Variables, env2.Variables with
    | some m1, some m2 => compareVars m1 m2
    | _, _ => false
  else
    false

/-- Well-formedness of a modelled environment value: a JavaScript object
cannot carry the same key twice, so a `Variables` field list has
pairwise-distinct keys. -/
def EnvWF : EnvVal → Prop
  | .obj (some m) => (varKeys m).Nodup
  | _ => True

instance : (e : EnvVal) → Decidable (EnvWF e)
  | .undef => isTrue trivial
  | .null => isTrue trivial
  | .obj none => isTrue trivial
  | .obj (some m) => inferInstanceAs (Decidable ((varKeys m).Nodup))

/-- The claim's notion of an environment side that is "empty or absent":
`undefined`, `null`, an object without a `Variables` property, or one
whose `Variables` object has no entries. -/
def EnvIsEmptyOrAbsent (e : EnvVal) : Prop :=
  e = .undef ∨ e = .null ∨ e = .obj none ∨ e = .obj (some [])

instance (e : EnvVal) : Decidable (EnvIsEmptyOrAbsent e) := by
  unfold EnvIsEmptyOrAbsent; infer_instance

/-- The loaded `lambda-config.json` document with the declared field
types (`LambdaConfig` in the source). `readConfig` additionally requires
`FunctionName` and `Handler` to be non-empty strings before a deploy
proceeds. -/
structure LambdaConfig where
  archiveName : String
  FunctionName : String
  Description : String
  Handler : String
  Publish : Bool
  Runtime : String
  MemorySize : Int
  Timeout : Int
deriving DecidableEq

/-- The loaded `lambda-secrets.json` document with the declared field
types (`LambdaSecrets` in the source). -/
structure LambdaSecrets where
  region : String
  profile : String
  accessKeyId : String
  secretAccessKey : String
  Role : String
  Environment : EnvVal
deriving DecidableEq

/-- The remote function configuration snapshot (`FunctionConfiguration`),
with the fields the deploy flow compares or consults. -/
structure FunctionConfiguration where
  FunctionName : String
  Description : String
  Handler : String
  Runtime : String
  MemorySize : Int
  Timeout : Int
  Role : String
  Environment : EnvVal
  CodeSha256 : String
deriving DecidableEq

/-- The `getFunction` response: a wrapper object whose `Configuration`
property holds the function's configuration snapshot (its other
properties, `Code`, `Tags` and `Concurrency`, play no role in the
embedded flow). -/
structure GetFunctionResponse where
  Configuration : Option FunctionConfiguration
deriving DecidableEq

/-- The shape `checkLambdaConfig` reads from its argument: one
`FunctionConfiguration`-typed property access per compared field, each
possibly `undefined`. -/
structure FnConfigView where
  FunctionName : Option String
  Description : Option String
  Handler : Option String
  Runtime : Option String
  MemorySize : Option Int
  Timeout : Option Int
  Role : Option String
  Environment : EnvVal
deriving DecidableEq

/-- The property accesses `checkLambdaConfig` performs on the value
`deploy` actually passes it: the source hands over the whole
`GetFunctionResponse` (`this.lambdaGetInfo`) rather than its
`.Configuration`, and a `GetFunctionResponse` object has none of the
`FunctionConfiguration` properties, so every access yields `undefined`
(and `.Environment` likewise). -/
def GetFunctionResponse.configView (_r : GetFunctionResponse) : FnConfigView :=
  { FunctionName := none, Description := none, Handler := none,
    Runtime := none, MemorySize := none, Timeout := none, Role := none,
    Environment := .undef }

/-- `GdwAwsLambda.checkLambdaConfig`: strict equality on the seven
scalar fields (a JSON-loaded local field is never `undefined`, so an
`undefined` remote access compares unequal), then, only if those agree,
the environment comparison. The source's leading `config &&` truthiness
test always passes for an object argument and is subsumed here. -/
def checkLambdaConfig (config : FnConfigView) (cfg : LambdaConfig)
    (secrets : LambdaSecrets) : Bool :=
  let isEqual :=
    config.FunctionName == some cfg.FunctionName &&
    config.Description == some cfg.Description &&
    config.Handler == some cfg.Handler &&
    config.Runtime == some cfg.Runtime &&
    config.MemorySize == some cfg.MemorySize &&
    config.Timeout == some cfg.Timeout &&
    config.Role == some secrets.Role
  if isEqual then
    compareEnvironment config.Environment secrets.Environment
  else
    isEqual

/-- The payload placed in an `updateFunctionCode` request's `ZipFile`
field: the archive file's bytes, or — through the source's shadowed
`result` variable — the dry-run call's response object. -/
inductive ZipPayload where
  | buffer (bytes : List Nat)
  | responseObject (resp : FunctionConfiguration)
deriving DecidableEq

/-- An `updateFunctionCode` request (`UpdateFunctionCodeRequest`). -/
structure UpdateCodeParams where
  FunctionName : String
  Publish : Bool
  ZipFile : ZipPayload
  DryRun : Bool
deriving DecidableEq

/-- A `createFunction` request (`CreateFunctionRequest`), with
`Code.ZipFile` carrying the archive bytes. -/
structure CreateFunctionParams where
  FunctionName : String
  Description : String
  Handler : String
  Runtime : String
  MemorySize : Int
  Timeout : Int
  Publish : Bool
  Role : String
  ZipFile : List Nat
deriving DecidableEq

/-- An `updateFunctionConfiguration` request. -/
structure UpdateConfigParams where
  FunctionName : String
  Description : String
  Handler : String
  Runtime : String
  MemorySize : Int
  Timeout : Int
  Role : String
  Environment : EnvVal
deriving DecidableEq

/-- A remote API call issued during a deploy, in issuance order. -/
inductive Call where
  | getFunction (FunctionName : String)
  | createFunction (params : CreateFunctionParams)
  | updateFunctionCode (params : UpdateCodeParams)
  | updateFunctionConfiguration (params : UpdateConfigParams)
deriving DecidableEq

/-- Whether a call is a `createFunction` call. -/
def Call.isCreate : Call → Bool
  | .createFunction _ => true
  | _ => false

/-- Whether a call is an `updateFunctionCode` call (dry-run or real). -/
def Call.isCodeUpdate : Call → Bool
  | .updateFunctionCode _ => true
  | _ => false

/-- Whether a call is an `updateFunctionConfiguration` call. -/
def Call.isConfigUpdate : Call → Bool
  | .updateFunctionConfiguration _ => true
  | _ => false

/-- The `getFunction` callback's outcome: a `ResourceNotFoundException`,
some other error, or the function's data. -/
inductive GetOutcome where
  | resourceNotFound
  | failure
  | success (r : GetFunctionResponse)

/-- The remote and file-system behaviour a single deploy runs against:
the `getFunction` outcome, the archive file's bytes (`none` when the
read fails), and the outcome of each mutating call the deploy can issue.
`createResult` records whether the remote create succeeds; the source
discards that outcome (see `createFunctionOp`). -/
structure World where
  getFunctionResult : GetOutcome
  archive : Option (List Nat)
  dryRunResult : Except String FunctionConfiguration
  realUpdateResult : Except String FunctionConfiguration
  createResult : Except String Unit
  updateConfigResult : Except String Unit

/-- `deploy`'s options object; an absent object or field is falsy in the
source's `options && options.create` tests, modelled as `false`. -/
structure DeployOptions where
  create : Bool
  updateConfig : Bool
deriving DecidableEq

/-- A deploy promise's resolution value: a message string, or
`undefined` (the create path resolves with the inner `.then` callback's
missing return value). -/
inductive Resolved where
  | str (s : String)
  | undef
deriving DecidableEq

/-- `checkLambda`'s resolution: the `ERR_LAMBDA_NOT_FOUND` marker string
(not-found with the `create` option set) or the stored function data. -/
inductive CheckLambdaResult where
  | notFoundMsg
  | info (r : GetFunctionResponse)
deriving DecidableEq

/-- `GdwAwsLambda.checkLambda`: resolves the marker or the data, rejects
`ERR_LAMBDA_NOT_FOUND` when not found without the `create` option, and a
generic message on any other `getFunction` error. (The `getFunction`
call itself is prepended to the trace by `deploy`.) -/
def checkLambda (opts : DeployOptions) (w : World) :
    Except String CheckLambdaResult :=
  match w.getFunctionResult with
  | .resourceNotFound =>
      if opts.create then .ok .notFoundMsg else .error ERR_LAMBDA_NOT_FOUND
  | .failure => .error "Lambda getFunction Error"
  | .success r => .ok (.info r)

/-- `GdwAwsLambda.readArchive`: the archive file's bytes, or a rejection
for an empty archive name or a failed read (the source's message indeed
lacks the space before "not"). -/
def readArchive (cfg : LambdaConfig) (w : World) : Except String (List Nat) :=
  if 0 < cfg.archiveName.length then
    match w.archive with
    | some bytes => .ok bytes
    | none => .error ("Archive " ++ cfg.archiveName ++ "not found")
  else
    .error "Invalid archive name"

/-- `GdwAwsLambda.createFunction` as the source behaves at run time: a
failed archive read rejects, otherwise the `createFunction` call is
issued and the promise resolves with `undefined` immediately — the
node-style callback's `return Promise.reject(...)` and message string
are discarded, so the remote outcome (`w.createResult`) never reaches
the caller. -/
def createFunctionOp (cfg : LambdaConfig) (secrets : LambdaSecrets)
    (w : World) : Except String Resolved × List Call :=
  match readArchive cfg w with
  | .error e => (.error e, [])
  | .ok bytes =>
      (.ok .undef,
       [Call.createFunction
         { FunctionName := cfg.FunctionName, Description := cfg.Description,
           Handler := cfg.Handler, Runtime := cfg.Runtime,
           MemorySize := cfg.MemorySize, Timeout := cfg.Timeout,
           Publish := cfg.Publish, Role := secrets.Role, ZipFile := bytes }])

/-- `GdwAwsLambda.updateConfig`: issues the `updateFunctionConfiguration`
call and settles with the callback's outcome. -/
def updateConfigOp (cfg : LambdaConfig) (secrets : LambdaSecrets)
    (w : World) : Except String Unit × List Call :=
  ( match w.updateConfigResult with
    | .error _ => .error "Error updating function configuration"
    | .ok _ => .ok (),
    [Call.updateFunctionConfiguration
      { FunctionName := cfg.FunctionName, Description := cfg.Description,
        Handler := cfg.Handler, Runtime := cfg.Runtime,
        MemorySize := cfg.MemorySize, Timeout := cfg.Timeout,
        Role := secrets.Role, Environment := secrets.Environment }] )

/-- The code-update phase's resolution value: the up-to-date message, or
the real update call's response data. -/
inductive CodePhaseValue where
  | msg (s : String)
  | data (c : FunctionConfiguration)
deriving DecidableEq

/-- `GdwAwsLambda.updateFunctionCode`: read the archive, issue the
dry-run `updateFunctionCode` (`DryRun: true`, `ZipFile` = archive
bytes), then compare the returned `CodeSha256` against the stored
snapshot's. On a difference the real call (`DryRun: false`) is issued —
its `ZipFile` is the dry-run call's response object, because the
source's second `.then` rebinds `result` to that response. Equal hashes
resolve the up-to-date message; a missing stored configuration throws. -/
def updateFunctionCodeOp (cfg : LambdaConfig) (getInfo : GetFunctionResponse)
    (w : World) : Except String CodePhaseValue × List Call :=
  match readArchive cfg w with
  | .error e => (.error e, [])
  | .ok bytes =>
      let dryReq : UpdateCodeParams :=
        { FunctionName := cfg.FunctionName, Publish := cfg.Publish,
          ZipFile := .buffer bytes, DryRun := true }
      match w.dryRunResult with
      | .error e => (.error e, [.updateFunctionCode dryReq])
      | .ok result =>
          match getInfo.Configuration with
          | none =>
              (.error "Invalid Lambda function information",
               [.updateFunctionCode dryReq])
          | some remoteCfg =>
              if result.CodeSha256 != remoteCfg.CodeSha256 then
                let realReq : UpdateCodeParams :=
                  { FunctionName := cfg.FunctionName, Publish := cfg.Publish,
                    ZipFile := .responseObject result, DryRun := false }
                match w.realUpdateResult with
                | .error e =>
                    (.error e, [.updateFunctionCode dryReq,
                                .updateFunctionCode realReq])
                | .ok data =>
                    (.ok (.data data), [.updateFunctionCode dryReq,
                                        .updateFunctionCode realReq])
              else
                (.ok (.msg INFO_FUNCTION_CODE_UO_TO_DATE),
                 [.updateFunctionCode dryReq])

/-- The `Promise.all(promises).then(() => INFO_DEPLOY_COMPLETE)` join of
the found path's pending operations. `Promise.all` surfaces a failure;
when both operations fail the first in time wins, determinized here as
the configuration update's failure taking precedence. -/
def deployJoin (uc : Except String Unit) (code : Except String CodePhaseValue) :
    Except String Resolved :=
  match uc, code with
  | .error e, _ => .error e
  | _, .error e => .error e
  | .ok _, .ok _ => .ok (.str INFO_DEPLOY_COMPLETE)

/-- `GdwAwsLambda.deploy` from `checkLambda` onward, over the loaded
configuration and secrets (`createLambdaService`'s file loading and
client construction precede this and are not modelled). Returns the
promise's settlement and the remote calls issued, in issuance order.
In the found path the source pushes the configuration update (when
requested) and the code update into one concurrently-awaited batch, so
the code-update calls are issued regardless of the other's outcome. -/
def deploy (opts : DeployOptions) (cfg : LambdaConfig)
    (secrets : LambdaSecrets) (w : World) : Except String Resolved × List Call :=
  let rest : Except String Resolved × List Call :=
    match checkLambda opts w with
    | .error e => (.error e, [])
    | .ok .notFoundMsg => createFunctionOp cfg secrets w
    | .ok (.info info) =>
        if opts.updateConfig then
          let uc := updateConfigOp cfg secrets w
          let code := updateFunctionCodeOp cfg info w
          (deployJoin uc.1 code.1, uc.2 ++ code.2)
        else if checkLambdaConfig (GetFunctionResponse.configView info)
            cfg secrets then
          let code := updateFunctionCodeOp cfg info w
          (deployJoin (.ok ()) code.1, code.2)
        else
          (.error ERR_LAMBDA_CONFIG, [])
  (rest.1, Call.getFunction cfg.FunctionName :: rest.2)

/-- The claim's hypothesis for C1: the local configuration and secrets
differ from the remote snapshot in at least one compared field
(`FunctionName`, `Description`, `Handler`, `Runtime`, `MemorySize`,
`Timeout`, `Role`, or the `Environment.Variables` comparison). -/
def configMismatch (rc : FunctionConfiguration) (cfg : LambdaConfig)
    (secrets : LambdaSecrets) : Bool :=
  rc.FunctionName != cfg.FunctionName ||
  rc.Description != cfg.Description ||
  rc.Handler != cfg.Handler ||
  rc.Runtime != cfg.Runtime ||
  rc.MemorySize != cfg.MemorySize ||
  rc.Timeout != cfg.Timeout ||
  rc.Role != secrets.Role ||
  !compareEnvironment rc.Environment secrets.Environment

/-- Splitting a character list at every dot, as JavaScript's
`split('.')` does: an empty string yields one empty token, and every
dot opens a new token. -/
def splitDotAux : List Char → List Char → List String
  | [], acc => [String.mk acc.reverse]
  | c :: rest, acc =>
      if c = '.' then String.mk acc.reverse :: splitDotAux rest []
      else splitDotAux rest (c :: acc)

/-- `s.split('.')`: the dot-separated tokens of `s`. -/
def splitDot (s : String) : List String := splitDotAux s.data []

/-- An observable step of a test run: a module load attempt
(`require(filePath)`) or one handler invocation with its event and
context arguments. -/
inductive TestEvent where
  | moduleLoad (path : String)
  | invocation (event : JsonV) (context : Option JsonV)

/-- A loaded handler: applied to the event and the context, it calls the
completion callback with an `(error, data)` pair. -/
def HandlerFn : Type := JsonV → Option JsonV → JsonV × JsonV

/-- First-match lookup in a string-keyed association list (module path to
exports, export name to handler). -/
def lookupBy {α : Type} : List (String × α) → String → Option α
  | [], _ => none
  | (k, v) :: rest, key => if k == key then some v else lookupBy rest key

/-- The module system a test run loads handlers from: the working
directory and, per resolvable file path, the module's exported
handlers (`require` throws for a path not listed here). -/
structure ModuleWorld where
  cwd : String
  modules : List (String × List (String × HandlerFn))

/-- The elements the `for (i = 0; i < test.events.length; i++)` loop
visits for a given `events` property value: an array's elements; a
string's characters (each a one-character string in JavaScript); any
other value has no numeric `length`, so the loop body never runs (a
`null` value, which would throw in JavaScript, is not distinguished —
no modelled run reaches it). -/
def eventList : Option JsonV → List JsonV
  | some (.arr elems) => elems
  | some (.str s) => s.data.map (fun c => JsonV.str (String.mk [c]))
  | _ => []

/-- `GdwAwsLambda.executeEventTest`: invoke the handler once; the
callback rejects with a truthy error argument and resolves with the data
otherwise. -/
def executeEventTest (handler : HandlerFn) (context : Option JsonV)
    (event : JsonV) : Except JsonV JsonV × TestEvent :=
  let r := handler event context
  (if truthy r.1 then .error r.1 else .ok r.2, .invocation event context)

/-- The `Promise.all` join: every settled success in order, or a
failure (the first in time, determinized here as the first in program
order). All promises are issued regardless of failures. -/
def allSettled {α : Type} : List (Except JsonV α) → Except JsonV (List α)
  | [] => .ok []
  | .error e :: _ => .error e
  | .ok a :: rest =>
      match allSettled rest with
      | .error e => .error e
      | .ok tail => .ok (a :: tail)

/-- `GdwAwsLambda.executeContextTest`: one invocation per event of the
test case, all issued, joined with `Promise.all`. -/
def executeContextTest (handler : HandlerFn) (t : JsonV) :
    Except JsonV (List JsonV) × List TestEvent :=
  let context := getProp t "context"
  let runs := (eventList (getProp t "events")).map
    (executeEventTest handler context)
  (allSettled (runs.map Prod.fst), runs.map Prod.snd)

/-- `GdwAwsLambda.runTests` over the stored configuration's `Handler`
string (a non-empty string by the load check) and the stored test
cases: split the handler, throw `'Invalid handler'` unless it has
exactly two dot-separated tokens, then load the module from the working
directory, look up the export, and run every test case. -/
def runTests (handlerStr : String) (tests : List JsonV) (M : ModuleWorld) :
    Except JsonV (List (List JsonV)) × List TestEvent :=
  let splits := splitDot handlerStr
  if splits.length != 2 then
    (.error (.str "Invalid handler"), [])
  else
    let moduleName := splits.headD ""
    let handlerName := (splits.drop 1).headD ""
    let filePath := M.cwd ++ "/" ++ moduleName ++ ".js"
    match lookupBy M.modules filePath with
    | none =>
        (.error (.str ("Cannot find module " ++ filePath)),
         [.moduleLoad filePath])
    | some exports =>
        match lookupBy exports handlerName with
        | none => (.error (.str "invalid handler object"), [.moduleLoad filePath])
        | some handler =>
            let runs := tests.map (executeContextTest handler)
            (allSettled (runs.map Prod.fst),
             .moduleLoad filePath :: (runs.map Prod.snd).flatten)

/-- The configuration load of `test()`: `readObject` with the config
check, then the non-empty `FunctionName`/`Handler` requirement, storing
the parsed document. `none` is a never-settling read. -/
def loadTestConfig (outcome : ParseOutcome) : Option (Except JsonV JsonV) :=
  match readObject FILE_LAMBDA_CONFIG outcome (some FILE_LAMBDA_CONFIG) with
  | none => none
  | some (.error e) => some (.error (.str e))
  | some (.ok cfg) =>
      if isLambdaConfig cfg && isNEString (getProp cfg "FunctionName") &&
          isNEString (getProp cfg "Handler") then
        some (.ok cfg)
      else
        some (.error (.str "Invalid Lambda config"))

/-- The test-file load of `test()`: `readObject` with the tests check,
then `isLambdaTests`, storing the array's test cases. -/
def loadTests (outcome : ParseOutcome) : Option (Except JsonV (List JsonV)) :=
  match readObject FILE_LAMBDA_TESTS outcome (some FILE_LAMBDA_TESTS) with
  | none => none
  | some (.error e) => some (.error (.str e))
  | some (.ok v) =>
      match v with
      | .arr tests =>
          if tests.all isLambdaTest then some (.ok tests)
          else some (.error (.str "Invalid Lambda tests"))
      | _ => some (.error (.str "Invalid Lambda tests"))

/-- `GdwAwsLambda.test` on the default test file: both documents are
read concurrently and joined with `Promise.all` (a rejection wins over a
pending read; two rejections are determinized to the configuration's),
then `runTests` runs on the stored documents. Returns the promise's
settlement (`none` = never settles) and the test run's trace. -/
def testOp (cfgOutcome testsOutcome : ParseOutcome) (M : ModuleWorld) :
    Option (Except JsonV (List (List JsonV))) × List TestEvent :=
  match loadTestConfig cfgOutcome, loadTests testsOutcome with
  | some (.error e), _ => (some (.error e), [])
  | _, some (.error e) => (some (.error e), [])
  | some (.ok cfg), some (.ok tests) =>
      match getProp cfg "Handler" with
      | some (.str h) =>
          let r := runTests h tests M
          (some r.1, r.2)
      | _ =>
          -- unreachable from `loadTestConfig`, which requires `Handler`
          -- to be a non-empty string; JavaScript would throw here
          (some (.error (.str "Invalid handler")), [])
  | _, _ => (none, [])

/-- A sample loaded configuration used by concrete witnesses. -/
def exCfg : LambdaConfig :=
  { archiveName := "archive.zip", FunctionName := "myFn",
    Description := "demo function", Handler := "index.handler",
    Publish := false, Runtime := "nodejs6.10", MemorySize := 128,
    Timeout := 3 }

/-- `exCfg` with an empty archive name (its archive read rejects). -/
def exCfgNoArchive : LambdaConfig :=
  { archiveName := "", FunctionName := "myFn",
    Description := "demo function", Handler := "index.handler",
    Publish := false, Runtime := "nodejs6.10", MemorySize := 128,
    Timeout := 3 }

/-- Sample loaded secrets used by concrete witnesses. -/
def exSecrets : LambdaSecrets :=
  { region := "eu-west-1", profile := "", accessKeyId := "",
    secretAccessKey := "", Role := "role-arn",
    Environment := .obj (some []) }

/-- A remote snapshot agreeing with `exCfg`/`exSecrets` except for
`Timeout` (30 remotely, 3 locally); its code hash is "shaB". -/
def exRemoteCfg : FunctionConfiguration :=
  { FunctionName := "myFn", Description := "demo function",
    Handler := "index.handler", Runtime := "nodejs6.10", MemorySize := 128,
    Timeout := 30, Role := "role-arn", Environment := .obj (some []),
    CodeSha256 := "shaB" }

/-- A remote snapshot whose code hash matches the dry-run hash "shaA". -/
def exRemoteCfgSameSha : FunctionConfiguration :=
  { FunctionName := "myFn", Description := "demo function",
    Handler := "index.handler", Runtime := "nodejs6.10", MemorySize := 128,
    Timeout := 3, Role := "role-arn", Environment := .obj (some []),
    CodeSha256 := "shaA" }

/-- The `getFunction` response carrying `exRemoteCfg`. -/
def exResp : GetFunctionResponse := { Configuration := some exRemoteCfg }

/-- The `getFunction` response carrying `exRemoteCfgSameSha`. -/
def exRespSameSha : GetFunctionResponse :=
  { Configuration := some exRemoteCfgSameSha }

/-- The dry-run call's response: the would-be configuration with code
hash "shaA". -/
def exDryResp : FunctionConfiguration :=
  { FunctionName := "myFn", Description := "demo function",
    Handler := "index.handler", Runtime := "nodejs6.10", MemorySize := 128,
    Timeout := 3, Role := "role-arn", Environment := .obj (some []),
    CodeSha256 := "shaA" }

/-- A world where the function exists (snapshot `exResp`), the archive
reads bytes `[1, 2, 3]`, and every remote call succeeds. -/
def exWorldFound : World :=
  { getFunctionResult := .success exResp, archive := some [1, 2, 3],
    dryRunResult := .ok exDryResp, realUpdateResult := .ok exDryResp,
    createResult := .ok (), updateConfigResult := .ok () }

/-- A world where `getFunction` reports the function not found and every
other operation succeeds. -/
def exWorldNotFound : World :=
  { getFunctionResult := .resourceNotFound, archive := some [1, 2, 3],
    dryRunResult := .ok exDryResp, realUpdateResult := .ok exDryResp,
    createResult := .ok (), updateConfigResult := .ok () }

/-- Like `exWorldNotFound`, but the remote `createFunction` call fails. -/
def exWorldCreateFails : World :=
  { getFunctionResult := .resourceNotFound, archive := some [1, 2, 3],
    dryRunResult := .ok exDryResp, realUpdateResult := .ok exDryResp,
    createResult := .error "create failed", updateConfigResult := .ok () }

/-- A parsed `lambda-config.json` whose `Handler` is the dot-free string
"indexonlyexport". -/
def exTestCfgDoc : JsonV :=
  .obj [("archiveName", .str ""), ("FunctionName", .str "myFn"),
        ("Description", .str ""), ("Handler", .str "indexonlyexport"),
        ("Publish", .bool false), ("Runtime", .str "nodejs6.10"),
        ("MemorySize", .num 128), ("Timeout", .num 3)]

/-- A parsed test case with an empty context object and no events. -/
def exTestCase : JsonV := .obj [("context", .obj []), ("events", .arr [])]

/-- A module world with an empty module table. -/
def exModules : ModuleWorld := { cwd := "/work", modules := [] }

/-- A field list carrying all eight configuration property names with
values that violate every documented type. -/
def exBadConfigFields : List (String × JsonV) :=
  [("archiveName", .num 0), ("FunctionName", .null),
   ("Description", .bool false), ("Handler", .num 7),
   ("Publish", .num 0), ("Runtime", .str "python9"),
   ("MemorySize", .str "lots"), ("Timeout", .arr [])]

/-- A field list carrying all six secrets property names with ill-typed
values. -/
def exBadSecretsFields : List (String × JsonV) :=
  [("region", .num 1), ("profile", .null), ("accessKeyId", .bool false),
   ("secretAccessKey", .num 0), ("Role", .arr []),
   ("Environment", .str "nope")]

/-- The required property names of the configuration document. -/
def configRequiredKeys : List String :=
  ["archiveName", "FunctionName", "Description", "Handler", "Publish",
   "Runtime", "MemorySize", "Timeout"]

/-- The required property names of the secrets document. -/
def secretsRequiredKeys : List String :=
  ["region", "profile", "accessKeyId", "secretAccessKey", "Role",
   "Environment"]

theorem lookupVar_isSome_iff (m : VarMap) (key : String) :
    (lookupVar m key).isSome = true ↔ key ∈ varKeys m := by
  induction m with
  | nil => simp [lookupVar, varKeys]
  | cons p rest ih =>
      obtain ⟨a, b⟩ := p
      simp only [varKeys, List.map_cons, List.mem_cons] at ih ⊢
      by_cases h : a == key
      · have ha : a = key := eq_of_beq h
        simp [lookupVar, h, ha]
      · have ha : ¬ key = a := fun hk => h (by rw [hk]; exact beq_self_eq_true a)
        simp [lookupVar, h, ih, ha]

theorem lookupVar_eq_none_of_not_mem (m : VarMap) (key : String)
    (h : key ∉ varKeys m) : lookupVar m key = none := by
  cases hv : lookupVar m key with
  | none => rfl
  | some v =>
      exact absurd ((lookupVar_isSome_iff m key).mp (by rw [hv]; rfl)) h

theorem mem_iff_of_nodup_subset {l1 l2 : List String} (h1 : l1.Nodup)
    (h2 : l2.Nodup) (hlen : l1.length = l2.length)
    (hsub : ∀ k, k ∈ l1 → k ∈ l2) : ∀ k, k ∈ l1 ↔ k ∈ l2 := by
  have hfs : l1.toFinset ⊆ l2.toFinset := by
    intro x hx
    rw [List.mem_toFinset] at hx ⊢
    exact hsub x hx
  have hcard : l2.toFinset.card ≤ l1.toFinset.card := by
    rw [List.toFinset_card_of_nodup h1, List.toFinset_card_of_nodup h2]
    exact le_of_eq hlen.symm
  have heq := Finset.eq_of_subset_of_card_le hfs hcard
  intro k
  rw [← List.mem_toFinset, ← List.mem_toFinset, heq]

theorem length_eq_of_nodup_mem_iff {l1 l2 : List String} (h1 : l1.Nodup)
    (h2 : l2.Nodup) (hiff : ∀ k, k ∈ l1 ↔ k ∈ l2) :
    l1.length = l2.length := by
  have heq : l1.toFinset = l2.toFinset := by
    ext x
    rw [List.mem_toFinset, List.mem_toFinset]
    exact hiff x
  rw [← List.toFinset_card_of_nodup h1, ← List.toFinset_card_of_nodup h2, heq]

theorem compareVars_eq_true_iff (m1 m2 : VarMap)
    (h1 : (varKeys m1).Nodup) (h2 : (varKeys m2).Nodup) :
    compareVars m1 m2 = true ↔
      ((∀ k, k ∈ varKeys m1 ↔ k ∈ varKeys m2) ∧
       ∀ k, lookupVar m1 k = lookupVar m2 k) := by
  constructor
  · intro h
    simp only [compareVars] at h
    split at h
    case isTrue hlen =>
      have hlen' : (varKeys m1).length = (varKeys m2).length := eq_of_beq hlen
      have hlk : ∀ k ∈ varKeys m1, lookupVar m1 k = lookupVar m2 k :=
        fun k hk => eq_of_beq (List.all_eq_true.mp h k hk)
      have hsub : ∀ k, k ∈ varKeys m1 → k ∈ varKeys m2 := by
        intro k hk
        have hs : (lookupVar m1 k).isSome = true :=
          (lookupVar_isSome_iff m1 k).mpr hk
        rw [hlk k hk] at hs
        exact (lookupVar_isSome_iff m2 k).mp hs
      have hiff := mem_iff_of_nodup_subset h1 h2 hlen' hsub
      refine ⟨hiff, fun k => ?_⟩
      by_cases hk : k ∈ varKeys m1
      · exact hlk k hk
      · have hk2 : k ∉ varKeys m2 := fun hh => hk ((hiff k).mpr hh)
        rw [lookupVar_eq_none_of_not_mem m1 k hk,
            lookupVar_eq_none_of_not_mem m2 k hk2]
    case isFalse => exact absurd h (by simp)
  · rintro ⟨hiff, hlk⟩
    have hlen' : (varKeys m1).length = (varKeys m2).length :=
      length_eq_of_nodup_mem_iff h1 h2 hiff
    simp only [compareVars]
    rw [if_pos (by rw [hlen']; exact beq_self_eq_true _)]
    exact List.all_eq_true.mpr fun k _ => by
      rw [hlk k]; exact beq_self_eq_true _

theorem compareVars_symm (m1 m2 : VarMap) (h1 : (varKeys m1).Nodup)
    (h2 : (varKeys m2).Nodup) : compareVars m1 m2 = compareVars m2 m1 := by
  by_cases hc : compareVars m1 m2 = true
  · obtain ⟨hiff, hlk⟩ := (compareVars_eq_true_iff m1 m2 h1 h2).mp hc
    have hc2 : compareVars m2 m1 = true :=
      (compareVars_eq_true_iff m2 m1 h2 h1).mpr
        ⟨fun k => (hiff k).symm, fun k => (hlk k).symm⟩
    rw [hc, hc2]
  · have hc2 : ¬ compareVars m2 m1 = true := by
      intro hh
      obtain ⟨hiff, hlk⟩ := (compareVars_eq_true_iff m2 m1 h2 h1).mp hh
      exact hc ((compareVars_eq_true_iff m1 m2 h1 h2).mpr
        ⟨fun k => (hiff k).symm, fun k => (hlk k).symm⟩)
    rw [Bool.not_eq_true] at hc hc2
    rw [hc, hc2]

theorem emptySide_of_emptyOrAbsent {A : EnvVal} (h : EnvIsEmptyOrAbsent A) :
    emptySide A = true := by
  rcases h with rfl | rfl | rfl | rfl <;> rfl

theorem emptySide_false_iff (A : EnvVal) :
    emptySide A = false ↔ ∃ p m, A = .obj (some (p :: m)) := by
  rcases A with _ | _ | (_ | (_ | ⟨p, m⟩)) <;>
    simp [emptySide, isEmpty, isObject, isEmptyVars, EnvVal.Variables]

theorem compareEnvironment_of_empty_empty (A B : EnvVal)
    (hA : emptySide A = true) (hB : emptySide B = true) :
    compareEnvironment A B = true := by
  unfold compareEnvironment
  rw [hA, hB]
  rfl

theorem compareEnvironment_of_empty_nonempty (A : EnvVal)
    (hA : emptySide A = true) (q : String × String) (m2 : VarMap) :
    compareEnvironment A (.obj (some (q :: m2))) = false := by
  unfold compareEnvironment
  rw [hA]
  rfl

theorem compareEnvironment_of_nonempty_empty (B : EnvVal)
    (hB : emptySide B = true) (p : String × String) (m1 : VarMap) :
    compareEnvironment (.obj (some (p :: m1))) B = false := by
  rcases B with _ | _ | (_ | (_ | ⟨q, m2⟩))
  · rfl
  · rfl
  · rfl
  · rfl
  · have hf : emptySide (EnvVal.obj (some (q :: m2))) = false := rfl
    rw [hf] at hB
    exact absurd hB (by simp)

theorem compareEnvironment_cons_cons (p : String × String) (m1 : VarMap)
    (q : String × String) (m2 : VarMap) :
    compareEnvironment (.obj (some (p :: m1))) (.obj (some (q :: m2))) =
      compareVars (p :: m1) (q :: m2) := rfl

/-- Claim C3: the Environment.Variables equality check returns true when
both sides are empty or absent; false when exactly one side carries at
least one variable; and, for two non-empty Variables objects, true
exactly when the key sets coincide and every key maps to the same value
on both sides (hence independently of key order); including the five
quoted concrete instances. -/
theorem compareEnvironment_spec :
    (∀ A B : EnvVal, EnvIsEmptyOrAbsent A → EnvIsEmptyOrAbsent B →
       compareEnvironment A B = true) ∧
    (∀ (A : EnvVal) (m : VarMap), EnvIsEmptyOrAbsent A → m ≠ [] →
       compareEnvironment A (.obj (some m)) = false ∧
       compareEnvironment (.obj (some m)) A = false) ∧
    (∀ m1 m2 : VarMap, (varKeys m1).Nodup → (varKeys m2).Nodup →
       m1 ≠ [] → m2 ≠ [] →
       (compareEnvironment (.obj (some m1)) (.obj (some m2)) = true ↔
         ((∀ k, k ∈ varKeys m1 ↔ k ∈ varKeys m2) ∧
          ∀ k, lookupVar m1 k = lookupVar m2 k))) ∧
    compareEnvironment (.obj none) (.obj (some [])) = true ∧
    compareEnvironment (.obj (some [("X", "1")])) (.obj (some [])) = false ∧
    compareEnvironment (.obj (some [("X", "1")]))
      (.obj (some [("X", "1")])) = true ∧
    compareEnvironment (.obj (some [("X", "1")]))
      (.obj (some [("X", "2")])) = false ∧
    compareEnvironment (.obj (some [("X", "1"), ("Y", "2")]))
      (.obj (some [("Y", "2")])) = false := by
  refine ⟨?_, ?_, ?_, rfl, rfl, rfl, rfl, rfl⟩
  · intro A B hA hB
    exact compareEnvironment_of_empty_empty A B
      (emptySide_of_emptyOrAbsent hA) (emptySide_of_emptyOrAbsent hB)
  · intro A m hA hm
    match m, hm with
    | q :: m2, _ =>
        exact ⟨compareEnvironment_of_empty_nonempty A
                 (emptySide_of_emptyOrAbsent hA) q m2,
               compareEnvironment_of_nonempty_empty A
                 (emptySide_of_emptyOrAbsent hA) q m2⟩
  · intro m1 m2 h1 h2 hm1 hm2
    match m1, hm1, m2, hm2 with
    | p :: m1, _, q :: m2, _ =>
        rw [compareEnvironment_cons_cons]
        exact compareVars_eq_true_iff (p :: m1) (q :: m2) h1 h2

theorem compareEnvironment_spec_witness :
    compareEnvironment .undef (.obj (some [])) = true ∧
    compareEnvironment (.obj (some [("X", "1"), ("Y", "2")]))
      (.obj none) = false :=
  ⟨compareEnvironment_spec.1 .undef (.obj (some [])) (by decide) (by decide),
   (compareEnvironment_spec.2.1 (.obj none) [("X", "1"), ("Y", "2")]
     (by decide) (by decide)).2⟩

/-- Claim C4: the Environment.Variables equality check is symmetric on
well-formed environment values (JavaScript objects have pairwise
distinct keys) and reflexive on every environment value. -/
theorem compareEnvironment_symm_refl :
    (∀ A B : EnvVal, EnvWF A → EnvWF B →
       compareEnvironment A B = compareEnvironment B A) ∧
    (∀ A : EnvVal, compareEnvironment A A = true) := by
  constructor
  · intro A B hA hB
    by_cases eA : emptySide A = true
    · by_cases eB : emptySide B = true
      · rw [compareEnvironment_of_empty_empty A B eA eB,
            compareEnvironment_of_empty_empty B A eB eA]
      · obtain ⟨q, m2, rfl⟩ :=
          (emptySide_false_iff B).mp (eq_false_of_ne_true eB)
        rw [compareEnvironment_of_empty_nonempty A eA q m2,
            compareEnvironment_of_nonempty_empty A eA q m2]
    · obtain ⟨p, m1, rfl⟩ :=
        (emptySide_false_iff A).mp (eq_false_of_ne_true eA)
      by_cases eB : emptySide B = true
      · rw [compareEnvironment_of_nonempty_empty B eB p m1,
            compareEnvironment_of_empty_nonempty B eB p m1]
      · obtain ⟨q, m2, rfl⟩ :=
          (emptySide_false_iff B).mp (eq_false_of_ne_true eB)
        rw [compareEnvironment_cons_cons, compareEnvironment_cons_cons]
        exact compareVars_symm (p :: m1) (q :: m2) hA hB
  · intro A
    by_cases eA : emptySide A = true
    · exact compareEnvironment_of_empty_empty A A eA eA
    · obtain ⟨p, m, rfl⟩ :=
        (emptySide_false_iff A).mp (eq_false_of_ne_true eA)
      rw [compareEnvironment_cons_cons]
      simp only [compareVars]
      rw [if_pos (beq_self_eq_true _)]
      exact List.all_eq_true.mpr fun k _ => beq_self_eq_true _

theorem compareEnvironment_symm_refl_witness :
    compareEnvironment (.obj (some [("X", "1")])) (.obj (some [("Y", "2")])) =
      compareEnvironment (.obj (some [("Y", "2")])) (.obj (some [("X", "1")])) ∧
    compareEnvironment (.obj (some [("X", "1")])) (.obj (some [("X", "1")])) =
      true :=
  ⟨compareEnvironment_symm_refl.1 (.obj (some [("X", "1")]))
     (.obj (some [("Y", "2")])) (by decide) (by decide),
   compareEnvironment_symm_refl.2 (.obj (some [("X", "1")]))⟩

/-- Claim C10: document shape validation checks only the presence of the
required property names, never values or types — any object carrying all
required own properties of a kind passes that kind's check (and hence
`checkObject` for that kind), whatever the values are. -/
theorem validation_checks_presence_only :
    (∀ fields : List (String × JsonV),
       configRequiredKeys.all (hasOwnProperty (.obj fields)) = true →
       isLambdaConfig (.obj fields) = true ∧
       checkObject (.obj fields) FILE_LAMBDA_CONFIG = "") ∧
    (∀ fields : List (String × JsonV),
       secretsRequiredKeys.all (hasOwnProperty (.obj fields)) = true →
       isLambdaSecrets (.obj fields) = true ∧
       checkObject (.obj fields) FILE_LAMBDA_SECRETS = "") := by
  constructor
  · intro fields h
    simp only [configRequiredKeys, List.all_cons, List.all_nil,
      Bool.and_true, Bool.and_eq_true] at h
    obtain ⟨h1, h2, h3, h4, h5, h6, h7, h8⟩ := h
    have hc : isLambdaConfig (.obj fields) = true := by
      simp [isLambdaConfig, typeofIsObject, isNotNull,
        h1, h2, h3, h4, h5, h6, h7, h8]
    exact ⟨hc, by simp [checkObject, hc]⟩
  · intro fields h
    simp only [secretsRequiredKeys, List.all_cons, List.all_nil,
      Bool.and_true, Bool.and_eq_true] at h
    obtain ⟨h1, h2, h3, h4, h5, h6⟩ := h
    have hs : isLambdaSecrets (.obj fields) = true := by
      simp [isLambdaSecrets, typeofIsObject, isNotNull,
        h1, h2, h3, h4, h5, h6]
    refine ⟨hs, ?_⟩
    simp [checkObject, hs, FILE_LAMBDA_SECRETS, FILE_LAMBDA_CONFIG]

theorem validation_checks_presence_only_witness :
    (isLambdaConfig (.obj exBadConfigFields) = true ∧
     checkObject (.obj exBadConfigFields) FILE_LAMBDA_CONFIG = "") ∧
    (isLambdaSecrets (.obj exBadSecretsFields) = true ∧
     checkObject (.obj exBadSecretsFields) FILE_LAMBDA_SECRETS = "") :=
  ⟨validation_checks_presence_only.1 exBadConfigFields rfl,
   validation_checks_presence_only.2 exBadSecretsFields rfl⟩

/-- Claim C9 (code bug): `readObject` is not total over its outcomes —
for a file whose JSON parses to a falsy value (`null`, `false`, `0`, the
empty string) the promise never settles, with or without a `checkType`. -/
theorem readObject_falsy_never_settles :
    readObject FILE_LAMBDA_CONFIG (.parsed .null)
      (some FILE_LAMBDA_CONFIG) = none ∧
    readObject FILE_LAMBDA_TESTS (.parsed (.bool false)) none = none ∧
    readObject FILE_LAMBDA_SECRETS (.parsed (.num 0))
      (some FILE_LAMBDA_SECRETS) = none ∧
    readObject FILE_LAMBDA_CONFIG (.parsed (.str "")) none = none :=
  ⟨rfl, rfl, rfl, rfl⟩

/-- Claim C7: when both the configuration and the test documents load
successfully but the configured Handler string does not split into
exactly two dot-separated tokens, the test run rejects with the
invalid-handler error and its trace is empty — no module load is
attempted and no handler invocation occurs. -/
theorem test_rejects_invalid_handler_before_load
    (cfgOutcome testsOutcome : ParseOutcome) (M : ModuleWorld)
    (cfg : JsonV) (h : String) (tests : List JsonV)
    (hcfg : loadTestConfig cfgOutcome = some (.ok cfg))
    (hh : getProp cfg "Handler" = some (.str h))
    (htests : loadTests testsOutcome = some (.ok tests))
    (hsplit : (splitDot h).length ≠ 2) :
    testOp cfgOutcome testsOutcome M =
      (some (.error (.str "Invalid handler")), []) := by
  have hb : ((splitDot h).length != 2) = true := by
    simpa [bne_iff_ne] using hsplit
  simp [testOp, hcfg, htests, hh, runTests, hb]

theorem test_rejects_invalid_handler_before_load_witness :
    testOp (.parsed exTestCfgDoc) (.parsed (.arr [exTestCase])) exModules =
      (some (.error (.str "Invalid handler")), []) :=
  test_rejects_invalid_handler_before_load (.parsed exTestCfgDoc)
    (.parsed (.arr [exTestCase])) exModules exTestCfgDoc "indexonlyexport"
    [exTestCase] rfl rfl rfl (by decide)

/-- Claim C1: whenever `getFunction` finds the function, the
updateConfig option is unset, and the local configuration and secrets
differ from the remote snapshot in a compared field, the deploy rejects
with the `LambdaConfigMismatch` error and issues no `updateFunctionCode`
call (neither dry-run nor real) and no `updateFunctionConfiguration`
call. (The source in fact rejects on every such found-without-update
deploy, because `checkLambdaConfig` receives the whole response object;
the claimed implication holds a fortiori.) -/
theorem deploy_rejects_on_config_mismatch
    (opts : DeployOptions) (cfg : LambdaConfig) (secrets : LambdaSecrets)
    (w : World) (r : GetFunctionResponse) (rc : FunctionConfiguration)
    (hget : w.getFunctionResult = .success r)
    (hopt : opts.updateConfig = false)
    (_hsnap : r.Configuration = some rc)
    (_hdiff : configMismatch rc cfg secrets = true) :
    (deploy opts cfg secrets w).1 = .error ERR_LAMBDA_CONFIG ∧
    (deploy opts cfg secrets w).2.all
      (fun c => !c.isCodeUpdate && !c.isConfigUpdate) = true := by
  have hchk : checkLambda opts w = .ok (.info r) := by
    simp [checkLambda, hget]
  have hfalse : checkLambdaConfig (GetFunctionResponse.configView r)
      cfg secrets = false := rfl
  constructor
  · simp [deploy, hchk, hopt, hfalse]
  · simp [deploy, hchk, hopt, hfalse, Call.isCodeUpdate, Call.isConfigUpdate]

theorem deploy_rejects_on_config_mismatch_witness :
    (deploy { create := false, updateConfig := false } exCfg exSecrets
       exWorldFound).1 = .error ERR_LAMBDA_CONFIG ∧
    (deploy { create := false, updateConfig := false } exCfg exSecrets
       exWorldFound).2.all
      (fun c => !c.isCodeUpdate && !c.isConfigUpdate) = true :=
  deploy_rejects_on_config_mismatch { create := false, updateConfig := false }
    exCfg exSecrets exWorldFound exResp exRemoteCfg rfl rfl rfl (by decide)

/-- Claim C2 (code bug): at a concrete code-update phase the two-phase
behaviour holds — the dry-run call goes first carrying the archive
bytes; an equal hash yields the up-to-date message and no real call; a
differing hash yields exactly one real DryRun=false call — but the real
call's ZipFile is the dry-run response object, not the archive bytes
that were sent in the dry-run call. -/
theorem updateFunctionCode_payload_bug :
    updateFunctionCodeOp exCfg exResp exWorldFound =
      (.ok (.data exDryResp),
       [.updateFunctionCode ⟨"myFn", false, .buffer [1, 2, 3], true⟩,
        .updateFunctionCode ⟨"myFn", false,
          .responseObject exDryResp, false⟩]) ∧
    ZipPayload.responseObject exDryResp ≠ ZipPayload.buffer [1, 2, 3] ∧
    updateFunctionCodeOp exCfg exRespSameSha exWorldFound =
      (.ok (.msg INFO_FUNCTION_CODE_UO_TO_DATE),
       [.updateFunctionCode ⟨"myFn", false, .buffer [1, 2, 3], true⟩]) :=
  ⟨rfl, fun hcontra => ZipPayload.noConfusion hcontra, rfl⟩

/-- Claim C5 (counterexample): a deploy whose `getFunction` reports not
found, with the create option set but an empty archive name, issues no
`createFunction` call at all — refuting the claimed "exactly one
createFunction call" — and rejects with the archive error. -/
theorem deploy_create_no_archive_counterexample :
    (deploy { create := true, updateConfig := false } exCfgNoArchive
       exSecrets exWorldNotFound).2.countP Call.isCreate = 0 ∧
    (deploy { create := true, updateConfig := false } exCfgNoArchive
       exSecrets exWorldNotFound).1 = .error "Invalid archive name" :=
  ⟨rfl, rfl⟩

/-- Claim C5 (amended): for a deploy whose `getFunction` reports the
function not found: with the create option unset it rejects with
`LambdaNotFound` after only the `getFunction` call; with the create
option set and a readable archive (non-empty archive name, successful
read) it issues exactly one `createFunction` call and no
`updateFunctionConfiguration` or `updateFunctionCode` call. The
amendment adds the readable-archive proviso: with an unreadable archive
the deploy rejects with the archive error and issues no create call. -/
theorem deploy_not_found_paths (opts : DeployOptions) (cfg : LambdaConfig)
    (secrets : LambdaSecrets) (w : World)
    (hget : w.getFunctionResult = .resourceNotFound) :
    (opts.create = false →
       deploy opts cfg secrets w =
         (.error ERR_LAMBDA_NOT_FOUND, [.getFunction cfg.FunctionName])) ∧
    (∀ bytes, opts.create = true → 0 < cfg.archiveName.length →
       w.archive = some bytes →
       ((deploy opts cfg secrets w).2.countP Call.isCreate = 1 ∧
        (deploy opts cfg secrets w).2.all
          (fun c => !c.isCodeUpdate && !c.isConfigUpdate) = true)) := by
  constructor
  · intro hc
    simp [deploy, checkLambda, hget, hc]
  · intro bytes hc hname harch
    have hread : readArchive cfg w = .ok bytes := by
      simp [readArchive, hname, harch]
    constructor
    · simp [deploy, checkLambda, hget, hc, createFunctionOp, hread,
        Call.isCreate, List.countP_cons]
    · simp [deploy, checkLambda, hget, hc, createFunctionOp, hread,
        Call.isCreate, Call.isCodeUpdate, Call.isConfigUpdate]

theorem deploy_not_found_paths_witness :
    deploy { create := false, updateConfig := false } exCfg exSecrets
        exWorldNotFound =
      (.error ERR_LAMBDA_NOT_FOUND, [.getFunction "myFn"]) ∧
    ((deploy { create := true, updateConfig := false } exCfg exSecrets
        exWorldNotFound).2.countP Call.isCreate = 1 ∧
     (deploy { create := true, updateConfig := false } exCfg exSecrets
        exWorldNotFound).2.all
       (fun c => !c.isCodeUpdate && !c.isConfigUpdate) = true) :=
  ⟨(deploy_not_found_paths { create := false, updateConfig := false } exCfg
      exSecrets exWorldNotFound rfl).1 rfl,
   (deploy_not_found_paths { create := true, updateConfig := false } exCfg
      exSecrets exWorldNotFound rfl).2 [1, 2, 3] rfl (by decide) rfl⟩

/-- Claim C6 (counterexample): in a fully successful CREATE path (not
found, create option set, readable archive, remote create succeeding)
the deploy issues the `createFunction` call and no `updateFunctionCode`
call at all, so no dry-run comparison follows creation. -/
theorem deploy_create_path_counterexample :
    (deploy { create := true, updateConfig := false } exCfg exSecrets
       exWorldNotFound).2.countP Call.isCreate = 1 ∧
    (deploy { create := true, updateConfig := false } exCfg exSecrets
       exWorldNotFound).2.countP Call.isCodeUpdate = 0 :=
  ⟨rfl, rfl⟩

/-- Claim C6 (amended): in the CREATE path with a readable archive the
deploy consists of exactly the `getFunction` call and one
`createFunction` call carrying the archive bytes, resolves with
`undefined`, and performs no code-update phase afterwards (the archive
travels in the create request itself). -/
theorem deploy_create_path_behavior (opts : DeployOptions)
    (cfg : LambdaConfig) (secrets : LambdaSecrets) (w : World)
    (bytes : List Nat)
    (hget : w.getFunctionResult = .resourceNotFound)
    (hc : opts.create = true)
    (hname : 0 < cfg.archiveName.length)
    (harch : w.archive = some bytes) :
    deploy opts cfg secrets w =
      (.ok .undef,
       [.getFunction cfg.FunctionName,
        .createFunction ⟨cfg.FunctionName, cfg.Description, cfg.Handler,
          cfg.Runtime, cfg.MemorySize, cfg.Timeout, cfg.Publish,
          secrets.Role, bytes⟩]) := by
  have hread : readArchive cfg w = .ok bytes := by
    simp [readArchive, hname, harch]
  simp [deploy, checkLambda, hget, hc, createFunctionOp, hread]

theorem deploy_create_path_behavior_witness :
    deploy { create := true, updateConfig := false } exCfg exSecrets
        exWorldNotFound =
      (.ok .undef,
       [.getFunction "myFn",
        .createFunction ⟨"myFn", "demo function", "index.handler",
          "nodejs6.10", 128, 3, false, "role-arn", [1, 2, 3]⟩]) :=
  deploy_create_path_behavior { create := true, updateConfig := false }
    exCfg exSecrets exWorldNotFound [1, 2, 3] rfl rfl (by decide) rfl

/-- Claim C8 (code bug): with the function absent, the create option
set, a readable archive and a failing remote `createFunction` call, the
deploy still resolves — and with `undefined` rather than the
deploy-complete message — because the source discards the create
callback's rejection. -/
theorem deploy_swallows_create_failure :
    exWorldCreateFails.createResult = Except.error "create failed" ∧
    deploy { create := true, updateConfig := false } exCfg exSecrets
        exWorldCreateFails =
      (.ok .undef,
       [.getFunction "myFn",
        .createFunction ⟨"myFn", "demo function", "index.handler",
          "nodejs6.10", 128, 3, false, "role-arn", [1, 2, 3]⟩]) :=
  ⟨rfl, rfl⟩
